import Mathlib

/-!
Shallow embedding of `hyperion/torch/adv_attacks/random_attack_factory.py`
(class `RandomAttackFactory`), verified against the specification
of the repository.

Modelling conventions:
* Python floats are modelled as real numbers `ℝ`; Python ints as `ℤ`
  (list-index arithmetic as `ℕ`).  the Python float infinity, which may appear in
  the `norms` list, is modelled by `(⊤ : EReal)`, so norm values live in
  `EReal`.
* the torch process-wide random generator is modelled by `TorchRNG`: two
  cursor-indexed streams, one of naturals (feeding `torch.randint`) and
  one of reals (feeding `torch.rand`, whose values lie in `[0, 1)`);
  each draw advances the corresponding cursor.
* Fallible torch calls are modelled with `Except String`:
  `torch.randint(low, high, ...)` raises unless `low < high`; this is
  the only run-time failure reachable in `_sample_attack_args` when the
  real-valued bounds are positive.  Python `math.log` raises a
  ValueError on non-positive arguments; that failure path is not
  modelled (`Real.log` is total), so every statement here about which
  error surfaces during sampling carries positivity hypotheses on the
  eps and alpha bounds, keeping it inside the domain where the model
  agrees with the program.
-/

namespace Hyperion

/-- The torch global random source: a stream of naturals feeding the
integer draws, a stream of reals feeding the `torch.rand` draws, and a
cursor into each stream. -/
structure TorchRNG where
  ints : ℕ → ℕ
  reals : ℕ → ℝ
  iPos : ℕ
  rPos : ℕ

/-- Draw one integer sample: return the current value of the integer
stream and advance its cursor. -/
def TorchRNG.nextInt (g : TorchRNG) : ℕ × TorchRNG :=
  (g.ints g.iPos, { g with iPos := g.iPos + 1 })

/-- Draw one `torch.rand` sample: return the current value of the real
stream and advance its cursor. -/
def TorchRNG.nextReal (g : TorchRNG) : ℝ × TorchRNG :=
  (g.reals g.rPos, { g with rPos := g.rPos + 1 })

/-- A generator whose draws all lie in `[0, 1)`, as `torch.rand`
guarantees. -/
def TorchRNG.RealsIn01 (g : TorchRNG) : Prop :=
  ∀ i, 0 ≤ g.reals i ∧ g.reals i < 1

/-- The attribute record stored by `RandomAttackFactory.__init__`
(source lines 36-69): one field per `self.<name> = <name>` assignment. -/
structure RandomAttackFactory where
  attack_types : List String
  min_eps : ℝ
  max_eps : ℝ
  min_snr : ℝ
  max_snr : ℝ
  min_alpha : ℝ
  max_alpha : ℝ
  norms : List EReal
  random_eps : Bool
  min_num_random_init : ℤ
  max_num_random_init : ℤ
  min_confidence : ℝ
  max_confidence : ℝ
  min_lr : ℝ
  max_lr : ℝ
  min_binary_search_steps : ℤ
  max_binary_search_steps : ℤ
  abort_early : Bool
  min_iter : ℤ
  max_iter : ℤ
  min_c : ℝ
  max_c : ℝ
  reduce_c : Bool
  c_incr_factor : ℝ
  tau_decr_factor : ℝ
  indep_channels : Bool
  norm_time : Bool
  time_dim : Option ℤ
  use_snr : Bool
  loss : Option String
  targeted : Bool
  range_min : Option ℝ
  range_max : Option ℝ
  eps_scale : ℝ

/-- The keyword-argument dictionary built by `_sample_attack_args`
(source lines 94-126): every key that is stored into `attack_args`. -/
structure AttackArgs where
  attack_type : String
  eps : ℝ
  alpha : ℝ
  norm : EReal
  random_eps : Bool
  num_random_init : ℤ
  confidence : ℝ
  lr : ℝ
  binary_search_steps : ℤ
  max_iter : ℤ
  abort_early : Bool
  c : ℝ
  reduce_c : Bool
  c_incr_factor : ℝ
  tau_decr_factor : ℝ
  indep_channels : Bool
  norm_time : Bool
  time_dim : Option ℤ
  use_snr : Bool
  targeted : Bool
  range_min : Option ℝ
  range_max : Option ℝ
  eps_scale : ℝ

namespace RandomAttackFactory

/-- The record built by `__init__`: it only stores its arguments, one
assignment per field, performing no validation (source lines 36-69).
The Lean default values are the Python keyword defaults
(source lines 11-34). -/
def initCfg (attack_types : List String)
    (min_eps : ℝ := 1e-5) (max_eps : ℝ := 0.1)
    (min_snr : ℝ := 30) (max_snr : ℝ := 60)
    (min_alpha : ℝ := 1e-5) (max_alpha : ℝ := 0.02)
    (norms : List EReal := [⊤])
    (random_eps : Bool := false)
    (min_num_random_init : ℤ := 0) (max_num_random_init : ℤ := 3)
    (min_confidence : ℝ := 0) (max_confidence : ℝ := 1)
    (min_lr : ℝ := 1e-3) (max_lr : ℝ := 1e-2)
    (min_binary_search_steps : ℤ := 9) (max_binary_search_steps : ℤ := 9)
    (min_iter : ℤ := 5) (max_iter : ℤ := 10)
    (abort_early : Bool := true)
    (min_c : ℝ := 1e-3) (max_c : ℝ := 1e-2)
    (reduce_c : Bool := false)
    (c_incr_factor : ℝ := 2) (tau_decr_factor : ℝ := 0.9)
    (indep_channels : Bool := false) (norm_time : Bool := false)
    (time_dim : Option ℤ := none) (use_snr : Bool := false)
    (loss : Option String := none) (targeted : Bool := false)
    (range_min : Option ℝ := none) (range_max : Option ℝ := none)
    (eps_scale : ℝ := 1) : RandomAttackFactory :=
  { attack_types := attack_types, min_eps := min_eps, max_eps := max_eps,
    min_snr := min_snr, max_snr := max_snr,
    min_alpha := min_alpha, max_alpha := max_alpha, norms := norms,
    random_eps := random_eps,
    min_num_random_init := min_num_random_init,
    max_num_random_init := max_num_random_init,
    min_confidence := min_confidence, max_confidence := max_confidence,
    min_lr := min_lr, max_lr := max_lr,
    min_binary_search_steps := min_binary_search_steps,
    max_binary_search_steps := max_binary_search_steps,
    abort_early := abort_early, min_iter := min_iter, max_iter := max_iter,
    min_c := min_c, max_c := max_c, reduce_c := reduce_c,
    c_incr_factor := c_incr_factor, tau_decr_factor := tau_decr_factor,
    indep_channels := indep_channels, norm_time := norm_time,
    time_dim := time_dim, use_snr := use_snr, loss := loss,
    targeted := targeted, range_min := range_min, range_max := range_max,
    eps_scale := eps_scale }

/-- Constructor `__init__` as a fallible function: its body contains only
attribute assignments and no validation of any kind, so it always
returns `.ok` — no exception can be raised during construction. -/
def init (attack_types : List String)
    (min_eps : ℝ := 1e-5) (max_eps : ℝ := 0.1)
    (min_snr : ℝ := 30) (max_snr : ℝ := 60)
    (min_alpha : ℝ := 1e-5) (max_alpha : ℝ := 0.02)
    (norms : List EReal := [⊤])
    (random_eps : Bool := false)
    (min_num_random_init : ℤ := 0) (max_num_random_init : ℤ := 3)
    (min_confidence : ℝ := 0) (max_confidence : ℝ := 1)
    (min_lr : ℝ := 1e-3) (max_lr : ℝ := 1e-2)
    (min_binary_search_steps : ℤ := 9) (max_binary_search_steps : ℤ := 9)
    (min_iter : ℤ := 5) (max_iter : ℤ := 10)
    (abort_early : Bool := true)
    (min_c : ℝ := 1e-3) (max_c : ℝ := 1e-2)
    (reduce_c : Bool := false)
    (c_incr_factor : ℝ := 2) (tau_decr_factor : ℝ := 0.9)
    (indep_channels : Bool := false) (norm_time : Bool := false)
    (time_dim : Option ℤ := none) (use_snr : Bool := false)
    (loss : Option String := none) (targeted : Bool := false)
    (range_min : Option ℝ := none) (range_max : Option ℝ := none)
    (eps_scale : ℝ := 1) : Except String RandomAttackFactory :=
  .ok (initCfg attack_types min_eps max_eps min_snr max_snr min_alpha
    max_alpha norms random_eps min_num_random_init max_num_random_init
    min_confidence max_confidence min_lr max_lr min_binary_search_steps
    max_binary_search_steps min_iter max_iter abort_early min_c max_c
    reduce_c c_incr_factor tau_decr_factor indep_channels norm_time
    time_dim use_snr loss targeted range_min range_max eps_scale)

/-- Value computed by `_choice` when it succeeds: `torch.randint(0, n)`
produces a uniform index in `[0, n)`, modelled as the raw draw mod `n`. -/
def _choiceVal (n : ℕ) (raw : ℕ) : ℕ := raw % n

/-- Helper `_choice(n)` = `torch.randint(low=0, high=n, size=(1,)).item()`
(source lines 72-74); torch raises unless `0 < n`. -/
def _choice (n : ℕ) (raw : ℕ) : Except String ℕ :=
  if 0 < n then .ok (_choiceVal n raw) else
    .error ("random expects from to be less than to")

/-- Value computed by `_randint` when it succeeds: a uniform integer in
`[min_val, max_val]`, modelled as `min_val` plus the raw draw mod the
range width. -/
def _randintVal (min_val max_val : ℤ) (raw : ℕ) : ℤ :=
  min_val + (raw : ℤ) % (max_val + 1 - min_val)

/-- Helper `_randint(min_val, max_val)` =
`torch.randint(low=min_val, high=max_val+1, size=(1,)).item()`
(source lines 77-79); torch raises unless `min_val < max_val + 1`,
i.e. unless `min_val ≤ max_val`. -/
def _randint (min_val max_val : ℤ) (raw : ℕ) : Except String ℤ :=
  if min_val ≤ max_val then .ok (_randintVal min_val max_val raw) else
    .error ("random expects from to be less than to")

noncomputable section

/-- Helper `_uniform(min_val, max_val)` =
`(max_val - min_val) * torch.rand(size=(1,)).item() + min_val`
(source lines 82-84), with `u` the `torch.rand` draw. -/
def _uniform (min_val max_val u : ℝ) : ℝ :=
  (max_val - min_val) * u + min_val

/-- Helper `_log_uniform(min_val, max_val)` =
`exp((log(max_val) - log(min_val)) * torch.rand().item() + log(min_val))`
(source lines 87-90), with `u` the `torch.rand` draw.  Python
`math.log` raises a ValueError when its argument is non-positive;
`Real.log` is total, so that failure path is not modelled: this
definition is faithful to the source only for positive `min_val` and
`max_val`, and every theorem about the error behaviour of sampling
assumes positive eps and alpha bounds accordingly. -/
def _log_uniform (min_val max_val u : ℝ) : ℝ :=
  Real.exp ((Real.log max_val - Real.log min_val) * u + Real.log min_val)

/-- The argument dictionary `_sample_attack_args` builds when every
torch call succeeds, as a function of the configuration and the
generator: the draws are consumed in source order (lines 93-126), so
the integer draws are the stream values at cursor offsets `0..4` and
the `torch.rand` draws those at real-cursor offsets `0..4`. -/
def sampledArgs (cfg : RandomAttackFactory) (g : TorchRNG) : AttackArgs :=
  let eps := _log_uniform cfg.min_eps cfg.max_eps (g.reals g.rPos)
  { attack_type :=
      cfg.attack_types.getD (_choiceVal cfg.attack_types.length (g.ints g.iPos)) "",
    eps := eps,
    alpha := _log_uniform (min eps cfg.min_alpha) (min eps cfg.max_alpha)
      (g.reals (g.rPos + 1)),
    norm := cfg.norms.getD (_choiceVal cfg.norms.length (g.ints (g.iPos + 1))) ⊤,
    random_eps := cfg.random_eps,
    num_random_init := _randintVal cfg.min_num_random_init
      cfg.max_num_random_init (g.ints (g.iPos + 2)),
    confidence := _uniform cfg.min_confidence cfg.max_confidence
      (g.reals (g.rPos + 2)),
    lr := _uniform cfg.min_lr cfg.max_lr (g.reals (g.rPos + 3)),
    binary_search_steps := _randintVal cfg.min_binary_search_steps
      cfg.max_binary_search_steps (g.ints (g.iPos + 3)),
    max_iter := _randintVal cfg.min_iter cfg.max_iter (g.ints (g.iPos + 4)),
    abort_early := cfg.abort_early,
    c := _uniform cfg.min_c cfg.max_c (g.reals (g.rPos + 4)),
    reduce_c := cfg.reduce_c,
    c_incr_factor := cfg.c_incr_factor,
    tau_decr_factor := cfg.tau_decr_factor,
    indep_channels := cfg.indep_channels,
    norm_time := cfg.norm_time,
    time_dim := cfg.time_dim,
    use_snr := cfg.use_snr,
    targeted := cfg.targeted,
    range_min := cfg.range_min,
    range_max := cfg.range_max,
    eps_scale := cfg.eps_scale }

/-- Method `_sample_attack_args` (source lines 93-126): builds the argument
dictionary, drawing from the global generator in source order; a torch
error aborts the call.  Returns the dictionary together with the
advanced generator. -/
def _sample_attack_args (cfg : RandomAttackFactory) (g0 : TorchRNG) :
    Except String (AttackArgs × TorchRNG) := do
  let (i0, g1) := g0.nextInt
  let attack_idx ← _choice cfg.attack_types.length i0
  let (u0, g2) := g1.nextReal
  let eps := _log_uniform cfg.min_eps cfg.max_eps u0
  let (u1, g3) := g2.nextReal
  let alpha := _log_uniform (min eps cfg.min_alpha) (min eps cfg.max_alpha) u1
  let (i1, g4) := g3.nextInt
  let norm_idx ← _choice cfg.norms.length i1
  let (i2, g5) := g4.nextInt
  let num_random_init ← _randint cfg.min_num_random_init cfg.max_num_random_init i2
  let (u2, g6) := g5.nextReal
  let confidence := _uniform cfg.min_confidence cfg.max_confidence u2
  let (u3, g7) := g6.nextReal
  let lr := _uniform cfg.min_lr cfg.max_lr u3
  let (i3, g8) := g7.nextInt
  let binary_search_steps ←
    _randint cfg.min_binary_search_steps cfg.max_binary_search_steps i3
  let (i4, g9) := g8.nextInt
  let max_iter ← _randint cfg.min_iter cfg.max_iter i4
  let (u4, g10) := g9.nextReal
  let c := _uniform cfg.min_c cfg.max_c u4
  pure
    ({ attack_type := cfg.attack_types.getD attack_idx (""),
       eps := eps, alpha := alpha,
       norm := cfg.norms.getD norm_idx ⊤,
       random_eps := cfg.random_eps,
       num_random_init := num_random_init,
       confidence := confidence, lr := lr,
       binary_search_steps := binary_search_steps,
       max_iter := max_iter,
       abort_early := cfg.abort_early, c := c,
       reduce_c := cfg.reduce_c,
       c_incr_factor := cfg.c_incr_factor,
       tau_decr_factor := cfg.tau_decr_factor,
       indep_channels := cfg.indep_channels,
       norm_time := cfg.norm_time,
       time_dim := cfg.time_dim,
       use_snr := cfg.use_snr,
       targeted := cfg.targeted,
       range_min := cfg.range_min,
       range_max := cfg.range_max,
       eps_scale := cfg.eps_scale }, g10)

/-- The reproducibility scenario of the spec: two `sample` calls in sequence
on one source.  The first call consumes the generator and the second
continues from where the first stopped. -/
def twoSamples (cfg : RandomAttackFactory) (g : TorchRNG) :
    Except String (AttackArgs × AttackArgs) := do
  let (a1, g1) ← _sample_attack_args cfg g
  let (a2, _) ← _sample_attack_args cfg g1
  pure (a1, a2)

/-- Method `_sample_attack_args` viewed with explicit receiver: the pair (updated
receiver, result).  The Python body never assigns to `self`, so the
receiver comes back unchanged. -/
def sampleArgsMethod (self : RandomAttackFactory) (g : TorchRNG) :
    RandomAttackFactory × Except String (AttackArgs × TorchRNG) :=
  (self, _sample_attack_args self g)

/-- Method `sample_attack(model)` (source lines 129-132) with explicit receiver:
samples the argument dictionary, adds the `model` entry, and hands the
result to `AttackFactory.create` (an external static method of another
class, which receives only the argument dictionary and therefore cannot
modify this sampler; we model the call by returning its payload).
The receiver is returned unchanged: the body never assigns to `self`. -/
def sample_attack {μ : Type} (self : RandomAttackFactory) (g : TorchRNG)
    (model : Option μ) :
    RandomAttackFactory × Except String (AttackArgs × Option μ × TorchRNG) :=
  (self,
    do
      let (a, g1) ← _sample_attack_args self g
      pure (a, model, g1))

end

/-- An all-zeros random source: every integer draw is `0` and every
`torch.rand` draw is `0`. -/
def rngZero : TorchRNG :=
  { ints := fun _ => 0, reals := fun _ => 0, iPos := 0, rPos := 0 }

/-- A random source whose integer stream holds `w` at index `k` and `0`
elsewhere, with all real draws `0`: used to realize a chosen value for
one specific integer draw. -/
def rngIntAt (k w : ℕ) : TorchRNG :=
  { ints := fun i => if i = k then w else 0, reals := fun _ => 0,
    iPos := 0, rPos := 0 }

/-- A configuration whose confidence range is `[2, 3]`: constructed as
`RandomAttackFactory(["fgsm"], min_confidence=2, max_confidence=3)`,
all other arguments at their defaults. -/
noncomputable def cfgConf23 : RandomAttackFactory :=
  initCfg ["fgsm"] 1e-5 0.1 30 60 1e-5 0.02 [⊤] false 0 3 2 3

/-- A configuration whose iteration range is inverted
(`min_iter=10 > max_iter=5`): constructed as
`RandomAttackFactory(["fgsm"], min_iter=10, max_iter=5)`, all other
arguments at their defaults. -/
noncomputable def cfgIter105 : RandomAttackFactory :=
  initCfg ["fgsm"] 1e-5 0.1 30 60 1e-5 0.02 [⊤] false 0 3 0 1 1e-3 1e-2
    9 9 10 5

/-- A default value recorded by `add_argparse_args`. -/
inductive ArgDefault where
  | strs (ss : List String)
  | floats (xs : List EReal)
  | num (x : ℝ)
  | intNum (n : ℤ)
  | flag (b : Bool)

/-- One `parser.add_argument` call: the flag name and its default. -/
structure ArgSpec where
  name : String
  default : ArgDefault

/-- Static method `add_argparse_args` (source lines 170-293) modelled as the list of
`add_argument` calls it makes: flag name (with the `--`/`--<pre>-`
prefix of the source) and declared default, in source order.
Flags declared with the store-true action default to `False`. -/
noncomputable def add_argparse_args (pre : Option String) : List ArgSpec :=
  let p1 := match pre with
    | none => "--"
    | some s => "--" ++ s ++ "-"
  [⟨p1 ++ "attack-types", .strs ["fgsm"]⟩,
   ⟨p1 ++ "norms", .floats [⊤]⟩,
   ⟨p1 ++ "min-eps", .num 1e-5⟩,
   ⟨p1 ++ "max-eps", .num 0.1⟩,
   ⟨p1 ++ "min-snr", .num 30⟩,
   ⟨p1 ++ "max-snr", .num 60⟩,
   ⟨p1 ++ "min-alpha", .num 1e-5⟩,
   ⟨p1 ++ "max-alpha", .num 0.02⟩,
   ⟨p1 ++ "random-eps", .flag false⟩,
   ⟨p1 ++ "min-confidence", .num 0⟩,
   ⟨p1 ++ "max-confidence", .num 1⟩,
   ⟨p1 ++ "min-lr", .num 1e-3⟩,
   ⟨p1 ++ "max-lr", .num 1e-2⟩,
   ⟨p1 ++ "min-binary-search-steps", .intNum 9⟩,
   ⟨p1 ++ "max-binary-search-steps", .intNum 9⟩,
   ⟨p1 ++ "min-iter", .intNum 5⟩,
   ⟨p1 ++ "max-iter", .intNum 10⟩,
   ⟨p1 ++ "min-c", .num 1e-3⟩,
   ⟨p1 ++ "max-c", .num 1e-2⟩,
   ⟨p1 ++ "reduce-c", .flag false⟩,
   ⟨p1 ++ "c-incr-factor", .num 2⟩,
   ⟨p1 ++ "tau-decr-factor", .num 0.75⟩,
   ⟨p1 ++ "indep-channels", .flag false⟩,
   ⟨p1 ++ "no-abort", .flag false⟩,
   ⟨p1 ++ "min-num-random-init", .intNum 1⟩,
   ⟨p1 ++ "max-num-random-init", .intNum 5⟩,
   ⟨p1 ++ "targeted", .flag false⟩,
   ⟨p1 ++ "use-snr", .flag false⟩,
   ⟨p1 ++ "norm-time", .flag false⟩]

/-- A Python value as passed in the keyword-argument dictionary of
`filter_args`.  Python floats are modelled by rationals here: that part
of the code only moves values around, it performs no real arithmetic. -/
inductive Val where
  | boolean (b : Bool)
  | intNum (n : ℤ)
  | num (q : ℚ)
  | str (s : String)
  | vals (l : List Val)

/-- Python truthiness of a value. -/
def Val.truthy : Val → Bool
  | .boolean b => b
  | .intNum n => n != 0
  | .num q => q != 0
  | .str s => s != ""
  | .vals l => !l.isEmpty

/-- Python `not v`: a boolean, the negation of the truthiness of `v`. -/
def pyNot (v : Val) : Val := .boolean (!v.truthy)

/-- Python `float(a)`.  Conversion of numeric strings is not modelled:
every string raises here, where Python would convert the numeric ones
(no claim depends on the norms-conversion branch succeeding on
strings). -/
def pyFloat : Val → Except String Val
  | .boolean b => .ok (.num (if b then 1 else 0))
  | .intNum n => .ok (.num n)
  | .num q => .ok (.num q)
  | .str _ => .error ("could not convert string to float")
  | .vals _ => .error ("float argument must be a number")

/-- Python iteration `for a in v`.  Iteration over strings is not
modelled: it raises here (no claim depends on it). -/
def pyIter : Val → Except String (List Val)
  | .vals l => .ok l
  | _ => .error ("object is not iterable")

/-- First-match lookup in a keyword-argument dictionary (Python dicts
have unique keys, so first-match agrees with dict lookup). -/
def kwLookup : List (String × Val) → String → Option Val
  | [], _ => none
  | kv :: t, k => if kv.1 = k then some kv.2 else kwLookup t k

/-- Python dict assignment `kwargs[k] = v`: replace the value at an
existing key, else append the new binding. -/
def kwSet (kwargs : List (String × Val)) (k : String) (v : Val) :
    List (String × Val) :=
  if kwargs.any (fun kv => kv.1 == k) then
    kwargs.map (fun kv => if kv.1 == k then (k, v) else kv)
  else
    kwargs ++ [(k, v)]

/-- The tuple `valid_args` (source lines 148-161). -/
def valid_args : List String :=
  ["attack_types", "min_eps", "max_eps", "min_snr", "max_snr",
   "norms", "random_eps", "min_num_random_init", "max_num_random_init",
   "min_alpha", "max_alpha", "min_confidence", "max_confidence",
   "min_lr", "max_lr", "min_binary_search_steps",
   "max_binary_search_steps", "min_iter", "max_iter", "abort_early",
   "min_c", "max_c", "reduce_c", "c_incr_factor", "tau_decr_factor",
   "indep_channels", "use_snr", "norm_time", "targeted"]

/-- The key prefix `p` computed by `filter_args`: empty when no prefix
is given, else the prefix followed by an underscore. -/
def argP (pre : Option String) : String :=
  match pre with
  | none => ""
  | some s => s ++ "_"

/-- Static method `filter_args` (source lines 135-166): negate `no_abort` into
`abort_early` when present, convert the `norms` entry to floats when
present, then keep exactly the `valid_args` keys that occur with the
prefix, stripping the prefix. -/
def filter_args (pre : Option String) (kwargs : List (String × Val)) :
    Except String (List (String × Val)) := do
  let p := argP pre
  let kwargs1 :=
    match kwLookup kwargs (p ++ "no_abort") with
    | some v => kwSet kwargs (p ++ "abort_early") (pyNot v)
    | none => kwargs
  let kwargs2 ←
    match kwLookup kwargs1 (p ++ "norms") with
    | some v => do
        let l ← pyIter v
        let l2 ← l.mapM pyFloat
        pure (kwSet kwargs1 (p ++ "norms") (.vals l2))
    | none => pure kwargs1
  pure (valid_args.filterMap
    (fun k => (kwLookup kwargs2 (p ++ k)).map (fun v => (k, v))))

/-- Reduction of `Except` bind on a success value. -/
theorem exceptBind_ok {α β : Type} (a : α) (f : α → Except String β) :
    (Except.ok a >>= f) = f a := rfl

/-- Reduction of `Except` bind on an error value. -/
theorem exceptBind_err {α β : Type} (e : String) (f : α → Except String β) :
    ((Except.error e : Except String α) >>= f) = .error e := rfl

/-- When the list lengths are positive and the three integer ranges are
well ordered, every torch call in `_sample_attack_args` succeeds and the
returned dictionary is `sampledArgs`, with both cursors advanced by 5. -/
theorem sample_ok (cfg : RandomAttackFactory) (g : TorchRNG)
    (h1 : 0 < cfg.attack_types.length) (h2 : 0 < cfg.norms.length)
    (h3 : cfg.min_num_random_init ≤ cfg.max_num_random_init)
    (h4 : cfg.min_binary_search_steps ≤ cfg.max_binary_search_steps)
    (h5 : cfg.min_iter ≤ cfg.max_iter) :
    _sample_attack_args cfg g =
      .ok (sampledArgs cfg g,
           { g with iPos := g.iPos + 5, rPos := g.rPos + 5 }) := by
  simp only [_sample_attack_args, TorchRNG.nextInt, TorchRNG.nextReal,
    _choice, _randint, if_pos h1, if_pos h2, if_pos h3, if_pos h4, if_pos h5,
    bind, Except.bind, pure, Except.pure, sampledArgs]

/-- Inversion: if `_sample_attack_args` returns `.ok`, then every torch
precondition held and the returned dictionary is `sampledArgs`. -/
theorem sample_ok_inv (cfg : RandomAttackFactory) (g : TorchRNG)
    (args : AttackArgs) (gOut : TorchRNG)
    (h : _sample_attack_args cfg g = .ok (args, gOut)) :
    args = sampledArgs cfg g ∧
    0 < cfg.attack_types.length ∧ 0 < cfg.norms.length ∧
    cfg.min_num_random_init ≤ cfg.max_num_random_init ∧
    cfg.min_binary_search_steps ≤ cfg.max_binary_search_steps ∧
    cfg.min_iter ≤ cfg.max_iter := by
  by_cases h1 : 0 < cfg.attack_types.length
  · by_cases h2 : 0 < cfg.norms.length
    · by_cases h3 : cfg.min_num_random_init ≤ cfg.max_num_random_init
      · by_cases h4 : cfg.min_binary_search_steps ≤ cfg.max_binary_search_steps
        · by_cases h5 : cfg.min_iter ≤ cfg.max_iter
          · rw [sample_ok cfg g h1 h2 h3 h4 h5] at h
            injection h with h'
            exact ⟨((Prod.ext_iff.mp h').1).symm, h1, h2, h3, h4, h5⟩
          · simp only [_sample_attack_args, TorchRNG.nextInt,
              TorchRNG.nextReal, _choice, _randint, if_pos h1, if_pos h2,
              if_pos h3, if_pos h4, if_neg h5, bind, Except.bind] at h
            exact Except.noConfusion h
        · simp only [_sample_attack_args, TorchRNG.nextInt,
            TorchRNG.nextReal, _choice, _randint, if_pos h1, if_pos h2,
            if_pos h3, if_neg h4, bind, Except.bind] at h
          exact Except.noConfusion h
      · simp only [_sample_attack_args, TorchRNG.nextInt, TorchRNG.nextReal,
          _choice, _randint, if_pos h1, if_pos h2, if_neg h3, bind,
          Except.bind] at h
        exact Except.noConfusion h
    · simp only [_sample_attack_args, TorchRNG.nextInt, TorchRNG.nextReal,
        _choice, _randint, if_pos h1, if_neg h2, bind, Except.bind] at h
      exact Except.noConfusion h
  · simp only [_sample_attack_args, TorchRNG.nextInt, TorchRNG.nextReal,
      _choice, if_neg h1, bind, Except.bind] at h
    exact Except.noConfusion h

/-- For draws `u ∈ [0, 1]`, `_uniform` stays within its bounds when the
range is well ordered. -/
theorem uniform_mem (lo hi u : ℝ) (hlh : lo ≤ hi) (hu0 : 0 ≤ u)
    (hu1 : u ≤ 1) : lo ≤ _uniform lo hi u ∧ _uniform lo hi u ≤ hi := by
  unfold _uniform
  constructor
  · nlinarith
  · nlinarith

/-- For positive endpoints both bounded by a positive `c` and a draw
`u ∈ [0, 1]`, the log-uniform sample is bounded by `c` (the endpoints
need not be ordered). -/
theorem log_uniform_le (lo hi c u : ℝ) (hlo : 0 < lo) (hhi : 0 < hi)
    (hlc : lo ≤ c) (hhc : hi ≤ c) (hu0 : 0 ≤ u) (hu1 : u ≤ 1) :
    _log_uniform lo hi u ≤ c := by
  have hc : 0 < c := lt_of_lt_of_le hlo hlc
  have h1 : Real.log lo ≤ Real.log c := Real.log_le_log hlo hlc
  have h2 : Real.log hi ≤ Real.log c := Real.log_le_log hhi hhc
  have hcomb : (Real.log hi - Real.log lo) * u + Real.log lo ≤ Real.log c := by
    nlinarith
  calc _log_uniform lo hi u ≤ Real.exp (Real.log c) :=
        Real.exp_le_exp.mpr hcomb
    _ = c := Real.exp_log hc

/-- For an ordered positive range and a draw `u ∈ [0, 1]`, the
log-uniform sample lies in `[lo, hi]`. -/
theorem log_uniform_mem (lo hi u : ℝ) (hlo : 0 < lo) (hlh : lo ≤ hi)
    (hu0 : 0 ≤ u) (hu1 : u ≤ 1) :
    lo ≤ _log_uniform lo hi u ∧ _log_uniform lo hi u ≤ hi := by
  have hhi : 0 < hi := lt_of_lt_of_le hlo hlh
  have hll : Real.log lo ≤ Real.log hi := Real.log_le_log hlo hlh
  constructor
  · have hcomb : Real.log lo ≤ (Real.log hi - Real.log lo) * u + Real.log lo := by
      nlinarith
    calc lo = Real.exp (Real.log lo) := (Real.exp_log hlo).symm
      _ ≤ _log_uniform lo hi u := Real.exp_le_exp.mpr hcomb
  · exact log_uniform_le lo hi hi u hlo hhi hlh le_rfl hu0 hu1

/-- The log-uniform sample is always positive. -/
theorem log_uniform_pos (lo hi u : ℝ) : 0 < _log_uniform lo hi u :=
  Real.exp_pos _

/-- For a well-ordered integer range, `_randintVal` lies in the range
inclusively, for every raw draw. -/
theorem randintVal_mem (lo hi : ℤ) (raw : ℕ) (h : lo ≤ hi) :
    lo ≤ _randintVal lo hi raw ∧ _randintVal lo hi raw ≤ hi := by
  unfold _randintVal
  have hw : 0 < hi + 1 - lo := by omega
  have h0 : 0 ≤ (raw : ℤ) % (hi + 1 - lo) := Int.emod_nonneg _ (by omega)
  have h1 : (raw : ℤ) % (hi + 1 - lo) < hi + 1 - lo :=
    Int.emod_lt_of_pos _ hw
  omega

/-- The raw draw `0` realizes the lower endpoint of `_randintVal`. -/
theorem randintVal_lo (lo hi : ℤ) (h : lo ≤ hi) :
    _randintVal lo hi 0 = lo := by
  unfold _randintVal
  have hw : 0 < hi + 1 - lo := by omega
  simp

/-- The raw draw `hi - lo` realizes the upper endpoint of `_randintVal`. -/
theorem randintVal_hi (lo hi : ℤ) (h : lo ≤ hi) :
    _randintVal lo hi (hi - lo).toNat = hi := by
  unfold _randintVal
  have hcast : ((hi - lo).toNat : ℤ) = hi - lo := Int.toNat_of_nonneg (by omega)
  rw [hcast, Int.emod_eq_of_lt (by omega) (by omega)]
  omega

/-- Helper `_choiceVal` is a valid index into a nonempty list. -/
theorem choiceVal_lt (n raw : ℕ) (h : 0 < n) : _choiceVal n raw < n :=
  Nat.mod_lt _ h

/-- Indexing a list with `getD` at a valid index yields a member. -/
theorem getD_mem_of_lt {α : Type} (l : List α) (i : ℕ) (d : α)
    (h : i < l.length) : l.getD i d ∈ l := by
  rw [List.getD_eq_getElem l d h]
  exact l.getElem_mem h

/-- When the two lists are nonempty and the first two integer ranges are
well ordered but the iteration range is inverted, `_sample_attack_args`
reaches the `max_iter` draw and fails there with the torch range
error. -/
theorem sample_iter_error (cfg : RandomAttackFactory) (g : TorchRNG)
    (h1 : 0 < cfg.attack_types.length) (h2 : 0 < cfg.norms.length)
    (h3 : cfg.min_num_random_init ≤ cfg.max_num_random_init)
    (h4 : cfg.min_binary_search_steps ≤ cfg.max_binary_search_steps)
    (h5 : ¬cfg.min_iter ≤ cfg.max_iter) :
    _sample_attack_args cfg g =
      .error ("random expects from to be less than to") := by
  simp only [_sample_attack_args, TorchRNG.nextInt, TorchRNG.nextReal,
    _choice, _randint, if_pos h1, if_pos h2, if_pos h3, if_pos h4,
    if_neg h5, bind, Except.bind]

/-- C1: for every sampler configuration with positive `min_alpha` and
`max_alpha`, every dictionary produced by `_sample_attack_args` has
`alpha ≤ eps`: `alpha` is drawn log-uniformly between
`min(eps, min_alpha)` and `min(eps, max_alpha)`, and both sampling
bounds are coupled to the realized `eps`. -/
theorem alpha_coupled_le_eps (cfg : RandomAttackFactory) (g : TorchRNG)
    (args : AttackArgs) (gOut : TorchRNG)
    (hma : 0 < cfg.min_alpha) (hMa : 0 < cfg.max_alpha)
    (hg : g.RealsIn01)
    (h : _sample_attack_args cfg g = .ok (args, gOut)) :
    args.alpha ≤ args.eps := by
  obtain ⟨rfl, -⟩ := sample_ok_inv cfg g args gOut h
  have hu := hg (g.rPos + 1)
  have heps : 0 < _log_uniform cfg.min_eps cfg.max_eps (g.reals g.rPos) :=
    log_uniform_pos _ _ _
  simp only [sampledArgs]
  exact log_uniform_le _ _ _ _ (lt_min heps hma) (lt_min heps hMa)
    (min_le_left _ _) (min_le_left _ _) hu.1 (le_of_lt hu.2)

/-- Witness for C1 at `RandomAttackFactory(["fgsm"])` and the all-zeros
random source. -/
theorem alpha_coupled_le_eps_witness :
    (sampledArgs (initCfg ["fgsm"]) rngZero).alpha ≤
      (sampledArgs (initCfg ["fgsm"]) rngZero).eps :=
  alpha_coupled_le_eps (initCfg ["fgsm"]) rngZero _ _
    (by norm_num [initCfg]) (by norm_num [initCfg])
    (fun i => by norm_num [rngZero])
    (sample_ok _ _ (by norm_num [initCfg]) (by norm_num [initCfg])
      (by norm_num [initCfg]) (by norm_num [initCfg]) (by norm_num [initCfg]))

/-- C2 (counterexample): constructing the sampler with the inverted
range `min_iter = 10 > max_iter = 5` raises nothing — construction
succeeds — and the range error is raised later, during sampling.  This
refutes the claim that a `ConfigurationError` is raised at construction
time and that no such error is raised during sampling. -/
theorem init_accepts_inverted_range_cex :
    init ["fgsm"] 1e-5 0.1 30 60 1e-5 0.02 [⊤] false 0 3 0 1 1e-3 1e-2
        9 9 10 5 = .ok cfgIter105 ∧
    _sample_attack_args cfgIter105 rngZero =
      .error ("random expects from to be less than to") := by
  constructor
  · rfl
  · exact sample_iter_error _ _ (by norm_num [cfgIter105, initCfg])
      (by norm_num [cfgIter105, initCfg]) (by norm_num [cfgIter105, initCfg])
      (by norm_num [cfgIter105, initCfg]) (by norm_num [cfgIter105, initCfg])

/-- C2 (amended): construction performs no range validation and never
raises, whatever the configured ranges; for a sampler whose eps and
alpha bounds are positive — so that the Python log-uniform draws at
source lines 97-101 are well defined and cannot raise a ValueError
first — a numeric integer range with min > max (here
`min_iter > max_iter`) instead surfaces as the torch range error at
sampling time. -/
theorem construction_never_raises_range_error_at_sampling
    (attack_types : List String)
    (min_eps max_eps min_snr max_snr min_alpha max_alpha : ℝ)
    (norms : List EReal) (random_eps : Bool)
    (min_num_random_init max_num_random_init : ℤ)
    (min_confidence max_confidence min_lr max_lr : ℝ)
    (min_binary_search_steps max_binary_search_steps min_iter max_iter : ℤ)
    (abort_early : Bool) (min_c max_c : ℝ) (reduce_c : Bool)
    (c_incr_factor tau_decr_factor : ℝ) (indep_channels norm_time : Bool)
    (time_dim : Option ℤ) (use_snr : Bool) (loss : Option String)
    (targeted : Bool) (range_min range_max : Option ℝ) (eps_scale : ℝ)
    (g : TorchRNG)
    (hne : attack_types ≠ []) (hnn : norms ≠ [])
    (_hpe1 : 0 < min_eps) (_hpe2 : 0 < max_eps)
    (_hpa1 : 0 < min_alpha) (_hpa2 : 0 < max_alpha)
    (h3 : min_num_random_init ≤ max_num_random_init)
    (h4 : min_binary_search_steps ≤ max_binary_search_steps)
    (h5 : max_iter < min_iter) :
    init attack_types min_eps max_eps min_snr max_snr min_alpha
        max_alpha norms random_eps min_num_random_init
        max_num_random_init min_confidence max_confidence min_lr max_lr
        min_binary_search_steps max_binary_search_steps min_iter
        max_iter abort_early min_c max_c reduce_c c_incr_factor
        tau_decr_factor indep_channels norm_time time_dim use_snr loss
        targeted range_min range_max eps_scale =
      .ok (initCfg attack_types min_eps max_eps min_snr max_snr
        min_alpha max_alpha norms random_eps min_num_random_init
        max_num_random_init min_confidence max_confidence min_lr max_lr
        min_binary_search_steps max_binary_search_steps min_iter
        max_iter abort_early min_c max_c reduce_c c_incr_factor
        tau_decr_factor indep_channels norm_time time_dim use_snr loss
        targeted range_min range_max eps_scale) ∧
    _sample_attack_args (initCfg attack_types min_eps max_eps min_snr
        max_snr min_alpha max_alpha norms random_eps min_num_random_init
        max_num_random_init min_confidence max_confidence min_lr max_lr
        min_binary_search_steps max_binary_search_steps min_iter
        max_iter abort_early min_c max_c reduce_c c_incr_factor
        tau_decr_factor indep_channels norm_time time_dim use_snr loss
        targeted range_min range_max eps_scale) g =
      .error ("random expects from to be less than to") :=
  ⟨rfl,
    sample_iter_error _ g (List.length_pos.mpr hne)
      (List.length_pos.mpr hnn) h3 h4 (not_le.mpr h5)⟩

/-- Witness for the amended C2 at
`RandomAttackFactory(["fgsm"], min_iter=7, max_iter=2)` and the
all-zeros random source. -/
theorem construction_never_raises_witness :
    init ["fgsm"] 1e-5 0.1 30 60 1e-5 0.02 [⊤] false 0 3 0 1 1e-3 1e-2
        9 9 7 2 true 1e-3 1e-2 false 2 0.9 false false none false none
        false none none 1 =
      .ok (initCfg ["fgsm"] 1e-5 0.1 30 60 1e-5 0.02 [⊤] false 0 3 0 1
        1e-3 1e-2 9 9 7 2 true 1e-3 1e-2 false 2 0.9 false false none
        false none false none none 1) ∧
    _sample_attack_args (initCfg ["fgsm"] 1e-5 0.1 30 60 1e-5 0.02 [⊤]
        false 0 3 0 1 1e-3 1e-2 9 9 7 2 true 1e-3 1e-2 false 2 0.9
        false false none false none false none none 1) rngZero =
      .error ("random expects from to be less than to") :=
  construction_never_raises_range_error_at_sampling ["fgsm"] 1e-5 0.1
    30 60 1e-5 0.02 [⊤] false 0 3 0 1 1e-3 1e-2 9 9 7 2 true 1e-3 1e-2
    false 2 0.9 false false none false none false none none 1 rngZero
    (by decide) (by decide) (by norm_num) (by norm_num) (by norm_num)
    (by norm_num) (by decide) (by decide) (by decide)

/-- C3: sampling is a deterministic function of the random source — on
identically seeded sources, two sequential `sample` calls reproduce the
same pair of configurations. -/
theorem sampling_deterministic (cfg : RandomAttackFactory)
    (g g2 : TorchRNG) (h : g = g2) :
    twoSamples cfg g = twoSamples cfg g2 := by
  rw [h]

/-- Witness for C3 at `RandomAttackFactory(["fgsm"])` and the all-zeros
random source, seeded identically on both sides. -/
theorem sampling_deterministic_witness :
    twoSamples (initCfg ["fgsm"]) rngZero =
      twoSamples (initCfg ["fgsm"]) rngZero :=
  sampling_deterministic (initCfg ["fgsm"]) rngZero rngZero rfl

/-- C4: for `0 < min_eps ≤ max_eps`, the sampled `eps` is the
exponential of a uniform draw between `log min_eps` and `log max_eps`,
and lies in `[min_eps, max_eps]`. -/
theorem eps_log_uniform_in_range (cfg : RandomAttackFactory)
    (g : TorchRNG) (args : AttackArgs) (gOut : TorchRNG)
    (h0 : 0 < cfg.min_eps) (h1 : cfg.min_eps ≤ cfg.max_eps)
    (hg : g.RealsIn01)
    (h : _sample_attack_args cfg g = .ok (args, gOut)) :
    args.eps = Real.exp (_uniform (Real.log cfg.min_eps)
      (Real.log cfg.max_eps) (g.reals g.rPos)) ∧
    cfg.min_eps ≤ args.eps ∧ args.eps ≤ cfg.max_eps := by
  obtain ⟨rfl, -⟩ := sample_ok_inv cfg g args gOut h
  have hu := hg g.rPos
  have hm := log_uniform_mem cfg.min_eps cfg.max_eps (g.reals g.rPos)
    h0 h1 hu.1 (le_of_lt hu.2)
  refine ⟨?_, ?_, ?_⟩
  · simp only [sampledArgs, _log_uniform, _uniform]
  · simpa only [sampledArgs] using hm.1
  · simpa only [sampledArgs] using hm.2

/-- Witness for C4 at `RandomAttackFactory(["fgsm"])` and the all-zeros
random source. -/
theorem eps_log_uniform_in_range_witness :
    (sampledArgs (initCfg ["fgsm"]) rngZero).eps =
      Real.exp (_uniform (Real.log (initCfg ["fgsm"]).min_eps)
        (Real.log (initCfg ["fgsm"]).max_eps) (rngZero.reals rngZero.rPos)) ∧
    (initCfg ["fgsm"]).min_eps ≤ (sampledArgs (initCfg ["fgsm"]) rngZero).eps ∧
    (sampledArgs (initCfg ["fgsm"]) rngZero).eps ≤ (initCfg ["fgsm"]).max_eps :=
  eps_log_uniform_in_range (initCfg ["fgsm"]) rngZero _ _
    (by norm_num [initCfg]) (by norm_num [initCfg])
    (fun i => by norm_num [rngZero])
    (sample_ok _ _ (by norm_num [initCfg]) (by norm_num [initCfg])
      (by norm_num [initCfg]) (by norm_num [initCfg]) (by norm_num [initCfg]))

/-- C5: for well-ordered integer ranges, the sampled
`num_random_init`, `binary_search_steps` and `max_iter` are integers in
`[min, max]` inclusive and both endpoints are attainable by some random
source; for well-ordered real ranges, the sampled `confidence`, `lr`
and `c` lie within their configured `[min, max]` ranges. -/
theorem int_fields_inclusive_real_fields_in_range
    (cfg : RandomAttackFactory) (g : TorchRNG) (args : AttackArgs)
    (gOut : TorchRNG)
    (hcf : cfg.min_confidence ≤ cfg.max_confidence)
    (hlr : cfg.min_lr ≤ cfg.max_lr) (hcc : cfg.min_c ≤ cfg.max_c)
    (hg : g.RealsIn01)
    (h : _sample_attack_args cfg g = .ok (args, gOut)) :
    (cfg.min_num_random_init ≤ args.num_random_init ∧
      args.num_random_init ≤ cfg.max_num_random_init) ∧
    (cfg.min_binary_search_steps ≤ args.binary_search_steps ∧
      args.binary_search_steps ≤ cfg.max_binary_search_steps) ∧
    (cfg.min_iter ≤ args.max_iter ∧ args.max_iter ≤ cfg.max_iter) ∧
    (∃ g2 a2 o2, _sample_attack_args cfg g2 = .ok (a2, o2) ∧
      a2.num_random_init = cfg.min_num_random_init) ∧
    (∃ g2 a2 o2, _sample_attack_args cfg g2 = .ok (a2, o2) ∧
      a2.num_random_init = cfg.max_num_random_init) ∧
    (∃ g2 a2 o2, _sample_attack_args cfg g2 = .ok (a2, o2) ∧
      a2.binary_search_steps = cfg.min_binary_search_steps) ∧
    (∃ g2 a2 o2, _sample_attack_args cfg g2 = .ok (a2, o2) ∧
      a2.binary_search_steps = cfg.max_binary_search_steps) ∧
    (∃ g2 a2 o2, _sample_attack_args cfg g2 = .ok (a2, o2) ∧
      a2.max_iter = cfg.min_iter) ∧
    (∃ g2 a2 o2, _sample_attack_args cfg g2 = .ok (a2, o2) ∧
      a2.max_iter = cfg.max_iter) ∧
    (cfg.min_confidence ≤ args.confidence ∧
      args.confidence ≤ cfg.max_confidence) ∧
    (cfg.min_lr ≤ args.lr ∧ args.lr ≤ cfg.max_lr) ∧
    (cfg.min_c ≤ args.c ∧ args.c ≤ cfg.max_c) := by
  obtain ⟨rfl, h1, h2, h3, h4, h5⟩ := sample_ok_inv cfg g args gOut h
  have hu2 := hg (g.rPos + 2)
  have hu3 := hg (g.rPos + 3)
  have hu4 := hg (g.rPos + 4)
  refine ⟨?_, ?_, ?_, ?_, ?_, ?_, ?_, ?_, ?_, ?_, ?_, ?_⟩
  · simpa only [sampledArgs] using randintVal_mem _ _ _ h3
  · simpa only [sampledArgs] using randintVal_mem _ _ _ h4
  · simpa only [sampledArgs] using randintVal_mem _ _ _ h5
  · refine ⟨rngZero, _, _, sample_ok _ _ h1 h2 h3 h4 h5, ?_⟩
    simp only [sampledArgs, rngZero]
    exact randintVal_lo _ _ h3
  · refine ⟨rngIntAt 2 (cfg.max_num_random_init -
      cfg.min_num_random_init).toNat, _, _,
      sample_ok _ _ h1 h2 h3 h4 h5, ?_⟩
    simp only [sampledArgs, rngIntAt, Nat.zero_add]
    norm_num
    exact randintVal_hi _ _ h3
  · refine ⟨rngZero, _, _, sample_ok _ _ h1 h2 h3 h4 h5, ?_⟩
    simp only [sampledArgs, rngZero]
    exact randintVal_lo _ _ h4
  · refine ⟨rngIntAt 3 (cfg.max_binary_search_steps -
      cfg.min_binary_search_steps).toNat, _, _,
      sample_ok _ _ h1 h2 h3 h4 h5, ?_⟩
    simp only [sampledArgs, rngIntAt, Nat.zero_add]
    norm_num
    exact randintVal_hi _ _ h4
  · refine ⟨rngZero, _, _, sample_ok _ _ h1 h2 h3 h4 h5, ?_⟩
    simp only [sampledArgs, rngZero]
    exact randintVal_lo _ _ h5
  · refine ⟨rngIntAt 4 (cfg.max_iter - cfg.min_iter).toNat, _, _,
      sample_ok _ _ h1 h2 h3 h4 h5, ?_⟩
    simp only [sampledArgs, rngIntAt, Nat.zero_add]
    norm_num
    exact randintVal_hi _ _ h5
  · simpa only [sampledArgs] using
      uniform_mem _ _ _ hcf hu2.1 (le_of_lt hu2.2)
  · simpa only [sampledArgs] using
      uniform_mem _ _ _ hlr hu3.1 (le_of_lt hu3.2)
  · simpa only [sampledArgs] using
      uniform_mem _ _ _ hcc hu4.1 (le_of_lt hu4.2)

/-- Witness for C5 at `RandomAttackFactory(["fgsm"])` and the all-zeros
random source. -/
theorem int_fields_inclusive_witness :
    ((initCfg ["fgsm"]).min_num_random_init ≤
      (sampledArgs (initCfg ["fgsm"]) rngZero).num_random_init ∧
     (sampledArgs (initCfg ["fgsm"]) rngZero).num_random_init ≤
      (initCfg ["fgsm"]).max_num_random_init) ∧
    ((initCfg ["fgsm"]).min_binary_search_steps ≤
      (sampledArgs (initCfg ["fgsm"]) rngZero).binary_search_steps ∧
     (sampledArgs (initCfg ["fgsm"]) rngZero).binary_search_steps ≤
      (initCfg ["fgsm"]).max_binary_search_steps) ∧
    ((initCfg ["fgsm"]).min_iter ≤
      (sampledArgs (initCfg ["fgsm"]) rngZero).max_iter ∧
     (sampledArgs (initCfg ["fgsm"]) rngZero).max_iter ≤
      (initCfg ["fgsm"]).max_iter) ∧
    (∃ g2 a2 o2, _sample_attack_args (initCfg ["fgsm"]) g2 = .ok (a2, o2) ∧
      a2.num_random_init = (initCfg ["fgsm"]).min_num_random_init) ∧
    (∃ g2 a2 o2, _sample_attack_args (initCfg ["fgsm"]) g2 = .ok (a2, o2) ∧
      a2.num_random_init = (initCfg ["fgsm"]).max_num_random_init) ∧
    (∃ g2 a2 o2, _sample_attack_args (initCfg ["fgsm"]) g2 = .ok (a2, o2) ∧
      a2.binary_search_steps = (initCfg ["fgsm"]).min_binary_search_steps) ∧
    (∃ g2 a2 o2, _sample_attack_args (initCfg ["fgsm"]) g2 = .ok (a2, o2) ∧
      a2.binary_search_steps = (initCfg ["fgsm"]).max_binary_search_steps) ∧
    (∃ g2 a2 o2, _sample_attack_args (initCfg ["fgsm"]) g2 = .ok (a2, o2) ∧
      a2.max_iter = (initCfg ["fgsm"]).min_iter) ∧
    (∃ g2 a2 o2, _sample_attack_args (initCfg ["fgsm"]) g2 = .ok (a2, o2) ∧
      a2.max_iter = (initCfg ["fgsm"]).max_iter) ∧
    ((initCfg ["fgsm"]).min_confidence ≤
      (sampledArgs (initCfg ["fgsm"]) rngZero).confidence ∧
     (sampledArgs (initCfg ["fgsm"]) rngZero).confidence ≤
      (initCfg ["fgsm"]).max_confidence) ∧
    ((initCfg ["fgsm"]).min_lr ≤
      (sampledArgs (initCfg ["fgsm"]) rngZero).lr ∧
     (sampledArgs (initCfg ["fgsm"]) rngZero).lr ≤
      (initCfg ["fgsm"]).max_lr) ∧
    ((initCfg ["fgsm"]).min_c ≤
      (sampledArgs (initCfg ["fgsm"]) rngZero).c ∧
     (sampledArgs (initCfg ["fgsm"]) rngZero).c ≤
      (initCfg ["fgsm"]).max_c) :=
  int_fields_inclusive_real_fields_in_range (initCfg ["fgsm"]) rngZero
    _ _ (by norm_num [initCfg]) (by norm_num [initCfg])
    (by norm_num [initCfg]) (fun i => by norm_num [rngZero])
    (sample_ok _ _ (by norm_num [initCfg]) (by norm_num [initCfg])
      (by norm_num [initCfg]) (by norm_num [initCfg]) (by norm_num [initCfg]))

/-- C6 (counterexample): a sampler constructed with
`min_confidence=2, max_confidence=3` produces a sampled configuration
whose `confidence` is `2`, outside `[0, 1]` — the code never clamps
`confidence` to the unit interval. -/
theorem confidence_unit_range_cex :
    _sample_attack_args cfgConf23 rngZero =
      .ok (sampledArgs cfgConf23 rngZero,
        { rngZero with iPos := rngZero.iPos + 5, rPos := rngZero.rPos + 5 }) ∧
    (sampledArgs cfgConf23 rngZero).confidence = 2 ∧
    ¬(sampledArgs cfgConf23 rngZero).confidence ≤ 1 := by
  refine ⟨sample_ok _ _ (by norm_num [cfgConf23, initCfg])
    (by norm_num [cfgConf23, initCfg]) (by norm_num [cfgConf23, initCfg])
    (by norm_num [cfgConf23, initCfg]) (by norm_num [cfgConf23, initCfg]),
    ?_, ?_⟩
  · simp [sampledArgs, cfgConf23, initCfg, _uniform, rngZero]
  · simp [sampledArgs, cfgConf23, initCfg, _uniform, rngZero]

/-- C6 (amended): whenever the configured confidence bounds are ordered
and lie within `[0, 1]` — as the defaults `min_confidence=0`,
`max_confidence=1` do — every sampled configuration has its
`confidence` in `[0, 1]`. -/
theorem confidence_in_unit_for_unit_bounds (cfg : RandomAttackFactory)
    (g : TorchRNG) (args : AttackArgs) (gOut : TorchRNG)
    (hb0 : 0 ≤ cfg.min_confidence)
    (hb1 : cfg.min_confidence ≤ cfg.max_confidence)
    (hb2 : cfg.max_confidence ≤ 1) (hg : g.RealsIn01)
    (h : _sample_attack_args cfg g = .ok (args, gOut)) :
    0 ≤ args.confidence ∧ args.confidence ≤ 1 := by
  obtain ⟨rfl, -⟩ := sample_ok_inv cfg g args gOut h
  have hu := hg (g.rPos + 2)
  have hm := uniform_mem cfg.min_confidence cfg.max_confidence
    (g.reals (g.rPos + 2)) hb1 hu.1 (le_of_lt hu.2)
  constructor
  · simpa only [sampledArgs] using le_trans hb0 hm.1
  · simpa only [sampledArgs] using le_trans hm.2 hb2

/-- Witness for the amended C6 at `RandomAttackFactory(["fgsm"])` (whose
confidence bounds are the defaults `0` and `1`) and the all-zeros
random source. -/
theorem confidence_in_unit_witness :
    0 ≤ (sampledArgs (initCfg ["fgsm"]) rngZero).confidence ∧
    (sampledArgs (initCfg ["fgsm"]) rngZero).confidence ≤ 1 :=
  confidence_in_unit_for_unit_bounds (initCfg ["fgsm"]) rngZero _ _
    (by norm_num [initCfg]) (by norm_num [initCfg]) (by norm_num [initCfg])
    (fun i => by norm_num [rngZero])
    (sample_ok _ _ (by norm_num [initCfg]) (by norm_num [initCfg])
      (by norm_num [initCfg]) (by norm_num [initCfg]) (by norm_num [initCfg]))

/-- C7: the class constructor defaults `tau_decr_factor` to `0.9`,
while `add_argparse_args` declares the default of the
`--tau-decr-factor` flag as `0.75`; the two defaults differ. -/
theorem tau_decr_factor_defaults_differ :
    (initCfg ["fgsm"]).tau_decr_factor = 0.9 ∧
    ((add_argparse_args none).find?
        (fun a => a.name == "--tau-decr-factor")).map ArgSpec.default =
      some (ArgDefault.num 0.75) ∧
    (initCfg ["fgsm"]).tau_decr_factor ≠ 0.75 := by
  refine ⟨rfl, rfl, ?_⟩
  norm_num [initCfg]

/-- C8: every successfully sampled configuration draws `attack_type`
from the configured `attack_types` list and `norm` from the configured
`norms` list, and passes every boolean flag through from the stored sampler
configuration unchanged. -/
theorem membership_and_bool_passthrough (cfg : RandomAttackFactory)
    (g : TorchRNG) (args : AttackArgs) (gOut : TorchRNG)
    (h : _sample_attack_args cfg g = .ok (args, gOut)) :
    args.attack_type ∈ cfg.attack_types ∧ args.norm ∈ cfg.norms ∧
    args.random_eps = cfg.random_eps ∧
    args.abort_early = cfg.abort_early ∧
    args.reduce_c = cfg.reduce_c ∧
    args.indep_channels = cfg.indep_channels ∧
    args.norm_time = cfg.norm_time ∧ args.use_snr = cfg.use_snr ∧
    args.targeted = cfg.targeted := by
  obtain ⟨rfl, h1, h2, -⟩ := sample_ok_inv cfg g args gOut h
  refine ⟨?_, ?_, rfl, rfl, rfl, rfl, rfl, rfl, rfl⟩
  · simp only [sampledArgs]
    exact getD_mem_of_lt _ _ _ (choiceVal_lt _ _ h1)
  · simp only [sampledArgs]
    exact getD_mem_of_lt _ _ _ (choiceVal_lt _ _ h2)

/-- Witness for C8 at `RandomAttackFactory(["fgsm"])` and the all-zeros
random source. -/
theorem membership_and_bool_passthrough_witness :
    (sampledArgs (initCfg ["fgsm"]) rngZero).attack_type ∈
      (initCfg ["fgsm"]).attack_types ∧
    (sampledArgs (initCfg ["fgsm"]) rngZero).norm ∈
      (initCfg ["fgsm"]).norms ∧
    (sampledArgs (initCfg ["fgsm"]) rngZero).random_eps =
      (initCfg ["fgsm"]).random_eps ∧
    (sampledArgs (initCfg ["fgsm"]) rngZero).abort_early =
      (initCfg ["fgsm"]).abort_early ∧
    (sampledArgs (initCfg ["fgsm"]) rngZero).reduce_c =
      (initCfg ["fgsm"]).reduce_c ∧
    (sampledArgs (initCfg ["fgsm"]) rngZero).indep_channels =
      (initCfg ["fgsm"]).indep_channels ∧
    (sampledArgs (initCfg ["fgsm"]) rngZero).norm_time =
      (initCfg ["fgsm"]).norm_time ∧
    (sampledArgs (initCfg ["fgsm"]) rngZero).use_snr =
      (initCfg ["fgsm"]).use_snr ∧
    (sampledArgs (initCfg ["fgsm"]) rngZero).targeted =
      (initCfg ["fgsm"]).targeted :=
  membership_and_bool_passthrough (initCfg ["fgsm"]) rngZero _ _
    (sample_ok _ _ (by norm_num [initCfg]) (by norm_num [initCfg])
      (by norm_num [initCfg]) (by norm_num [initCfg]) (by norm_num [initCfg]))

/-- Looking up the key just written by `kwSet` yields the new value. -/
theorem kwLookup_kwSet_self (m : List (String × Val)) (k : String)
    (v : Val) : kwLookup (kwSet m k v) k = some v := by
  induction m with
  | nil => simp [kwSet, kwLookup]
  | cons kv t ih =>
    by_cases hk : kv.1 = k
    · simp [kwSet, kwLookup, hk]
    · cases ht : t.any (fun kv => kv.1 == k) with
      | true =>
        simp [kwSet, kwLookup, hk, ht] at ih ⊢
        exact ih
      | false =>
        simp [kwSet, kwLookup, hk, ht] at ih ⊢
        exact ih

/-- Replacing the bindings of key `k` does not change lookups at a
different key. -/
theorem kwLookup_map_replace (m : List (String × Val)) (k : String)
    (v : Val) (k2 : String) (h : k2 ≠ k) :
    kwLookup (m.map (fun kv => if kv.1 == k then (k, v) else kv)) k2 =
      kwLookup m k2 := by
  induction m with
  | nil => simp
  | cons kv t ih =>
    simp only [beq_iff_eq] at ih
    by_cases hk : kv.1 = k
    · simp [kwLookup, hk, Ne.symm h, ih, fun hc : kv.1 = k2 =>
        h (hc.symm.trans hk)]
    · simp [kwLookup, hk, ih]

/-- Appending a binding for key `k` does not change lookups at a
different key. -/
theorem kwLookup_append_single (m : List (String × Val)) (k : String)
    (v : Val) (k2 : String) (h : k2 ≠ k) :
    kwLookup (m ++ [(k, v)]) k2 = kwLookup m k2 := by
  induction m with
  | nil => simp [kwLookup, Ne.symm h]
  | cons kv t ih => simp [kwLookup, ih]

/-- Update `kwSet` leaves lookups of other keys unchanged. -/
theorem kwLookup_kwSet_other (m : List (String × Val)) (k : String)
    (v : Val) (k2 : String) (h : k2 ≠ k) :
    kwLookup (kwSet m k v) k2 = kwLookup m k2 := by
  unfold kwSet
  cases ht : m.any (fun kv => kv.1 == k) with
  | true => simpa using kwLookup_map_replace m k v k2 h
  | false => simpa using kwLookup_append_single m k v k2 h

/-- Lookup in the dictionary built by the final comprehension
of `filter_args`: present exactly for the listed keys that the source
dictionary holds. -/
theorem kwLookup_filterMap (l : List String) (m : String → Option Val)
    (key : String) :
    kwLookup (l.filterMap (fun k => (m k).map (fun v => (k, v)))) key =
      if key ∈ l then m key else none := by
  induction l with
  | nil => simp [kwLookup]
  | cons a t ih =>
    by_cases ha : a = key
    · subst ha
      cases hm : m a with
      | none => simp [List.filterMap_cons, hm, ih]
      | some v => simp [List.filterMap_cons, hm, kwLookup]
    · cases hm : m a with
      | none => simp [List.filterMap_cons, hm, ih, Ne.symm ha]
      | some v => simp [List.filterMap_cons, hm, kwLookup, ha,
          Ne.symm ha, ih]

/-- String concatenation is left-cancellative. -/
theorem string_append_left_cancel (p a b : String) (h : p ++ a = p ++ b) :
    a = b := by
  have hd : p.data ++ a.data = p.data ++ b.data := by
    have hq := congrArg String.data h
    simpa [String.data_append] using hq
  exact String.ext (List.append_cancel_left hd)

/-- Every pair in the dictionary built by the final comprehension
of `filter_args` is keyed by one of the listed names. -/
theorem mem_filterMap_keys (l : List String) (m : String → Option Val)
    (kv : String × Val)
    (h : kv ∈ l.filterMap (fun k => (m k).map (fun v => (k, v)))) :
    kv.1 ∈ l := by
  rw [List.mem_filterMap] at h
  obtain ⟨a, ha, hfa⟩ := h
  cases hml : m a with
  | none => rw [hml] at hfa; exact absurd hfa (by simp)
  | some w =>
    rw [hml] at hfa
    have : (a, w) = kv := by injection hfa
    rw [← this]
    exact ha

/-- C9: whenever `filter_args` returns, the returned dictionary holds
only the recognized parameter names (with the prefix stripped) — every
unrecognized key is silently dropped — and when the `(prefix_)no_abort`
key is present, the returned `abort_early` is the logical negation of
its value. -/
theorem filter_args_keys_and_no_abort (pre : Option String)
    (kwargs res : List (String × Val))
    (h : filter_args pre kwargs = .ok res) :
    (∀ kv ∈ res, kv.1 ∈ valid_args) ∧
    (∀ v, kwLookup kwargs (argP pre ++ "no_abort") = some v →
      kwLookup res ("abort_early") = some (pyNot v)) := by
  have hne : argP pre ++ "abort_early" ≠ argP pre ++ "norms" := by
    intro hc
    exact absurd (string_append_left_cancel _ _ _ hc) (by decide)
  unfold filter_args at h
  simp only [bind, Except.bind, pure, Except.pure] at h
  cases hna : kwLookup kwargs (argP pre ++ "no_abort") with
  | some v0 =>
    rw [hna] at h
    cases hn : kwLookup (kwSet kwargs (argP pre ++ "abort_early")
        (pyNot v0)) (argP pre ++ "norms") with
    | none =>
      rw [hn] at h
      simp only [bind, Except.bind, pure, Except.pure] at h
      injection h with h
      subst h
      refine ⟨fun kv hkv => mem_filterMap_keys _ _ _ hkv, fun v hv => ?_⟩
      injection hv with hv
      subst hv
      rw [kwLookup_filterMap, if_pos (by decide),
        kwLookup_kwSet_self]
    | some w =>
      rw [hn] at h
      dsimp only at h
      cases hi : pyIter w with
      | error e =>
        rw [hi] at h
        dsimp only at h
        exact absurd h (by simp)
      | ok l =>
        rw [hi] at h
        dsimp only at h
        cases hm : l.mapM pyFloat with
        | error e =>
          rw [hm] at h
          dsimp only at h
          exact absurd h (by simp)
        | ok l2 =>
          rw [hm] at h
          dsimp only at h
          injection h with h
          subst h
          refine ⟨fun kv hkv => mem_filterMap_keys _ _ _ hkv,
            fun v hv => ?_⟩
          injection hv with hv
          subst hv
          rw [kwLookup_filterMap, if_pos (by decide),
            kwLookup_kwSet_other _ _ _ _ hne, kwLookup_kwSet_self]
  | none =>
    rw [hna] at h
    dsimp only at h
    cases hn : kwLookup kwargs (argP pre ++ "norms") with
    | none =>
      rw [hn] at h
      simp only [bind, Except.bind, pure, Except.pure] at h
      injection h with h
      subst h
      refine ⟨fun kv hkv => mem_filterMap_keys _ _ _ hkv, fun v hv => ?_⟩
      exact absurd hv (by simp)
    | some w =>
      rw [hn] at h
      dsimp only at h
      cases hi : pyIter w with
      | error e =>
        rw [hi] at h
        dsimp only at h
        exact absurd h (by simp)
      | ok l =>
        rw [hi] at h
        dsimp only at h
        cases hm : l.mapM pyFloat with
        | error e =>
          rw [hm] at h
          dsimp only at h
          exact absurd h (by simp)
        | ok l2 =>
          rw [hm] at h
          dsimp only at h
          injection h with h
          subst h
          refine ⟨fun kv hkv => mem_filterMap_keys _ _ _ hkv,
            fun v hv => ?_⟩
          exact absurd hv (by simp)

/-- Witness for C9: `filter_args(no_abort=True, bogus=7, min_eps=1.0)`
returns exactly the recognized keys `min_eps` and `abort_early`, with
`abort_early = not no_abort = False`. -/
theorem filter_args_keys_and_no_abort_witness :
    (∀ kv ∈ ([("min_eps", Val.num 1), ("abort_early", Val.boolean false)] :
        List (String × Val)), kv.1 ∈ valid_args) ∧
    (∀ v, kwLookup [("no_abort", Val.boolean true), ("bogus", Val.intNum 7),
        ("min_eps", Val.num 1)] (argP none ++ "no_abort") = some v →
      kwLookup [("min_eps", Val.num 1), ("abort_early", Val.boolean false)]
        "abort_early" = some (pyNot v)) :=
  filter_args_keys_and_no_abort none
    [("no_abort", Val.boolean true), ("bogus", Val.intNum 7),
     ("min_eps", Val.num 1)]
    [("min_eps", Val.num 1), ("abort_early", Val.boolean false)]
    rfl

/-- C10: sampling leaves the stored configuration of the sampler
untouched: both `_sample_attack_args` and `sample_attack`, viewed as
methods, return the receiver exactly as it was. -/
theorem sampling_preserves_state {μ : Type} (self : RandomAttackFactory)
    (g : TorchRNG) (model : Option μ) :
    (sampleArgsMethod self g).1 = self ∧
    (sample_attack self g model).1 = self :=
  ⟨rfl, rfl⟩

end RandomAttackFactory

end Hyperion
